import Mathlib

/-!
Shallow embedding of the single-symbol order-book matching engine
(`src/OrderBook.cpp`, `src/Order.cpp`, `src/include/orderbook/*.h`).

Shared `std::shared_ptr<Order>` aliasing is modelled with an arena:
`EngineState.store` owns every order ever handed to the engine, and the
order index, the price levels and the stop list hold arena indices, so a
mutation through one reference is visible through all of them, exactly as
with the shared pointers in the source.

Machine integers: `Price` is `int64_t` in the source and is modelled as
`Int` (no engine path brings prices near the 64-bit range except the
`PRICE_INFINITY` sentinel, kept as the literal `2^63 - 1`); `Quantity` and
`OrderId` are `uint64_t` and are modelled as `Nat` (the engine never
subtracts below zero on the paths exercised here: `fill` guards
`qty ≤ remaining` and level bookkeeping only subtracts traded quantity).
The C++ loops are given explicit fuel; `none` means the fuel ran out,
which is how the non-terminating path of `matchAgainstBook` is exposed.
-/

namespace OB

abbrev OrderId := Nat
abbrev Quantity := Nat
abbrev Price := Int

/-- `PRICE_INFINITY = std::numeric_limits<int64_t>::max()` (Types.h). -/
def PRICE_INFINITY : Price := 2 ^ 63 - 1

inductive Side where
  | BUY
  | SELL
deriving DecidableEq, Repr

inductive OrderType where
  | MARKET
  | LIMIT
  | STOP
  | STOP_LIMIT
deriving DecidableEq, Repr

inductive OrderStatus where
  | NEW
  | ACTIVE
  | PARTIALLY_FILLED
  | FILLED
  | CANCELLED
  | REJECTED
deriving DecidableEq, Repr

/-- The `Order` object (Order.h): identity, pricing, fill accounting and
status.  `triggered` is the `triggered_` flag of the `StopOrder` /
`StopLimitOrder` subclasses (always `false` for the other kinds, which in
the source do not carry the field at all). -/
structure Order where
  id : OrderId
  symbol : String
  side : Side
  type : OrderType
  status : OrderStatus
  quantity : Quantity
  filledQuantity : Quantity
  price : Price
  stopPrice : Price
  triggered : Bool
deriving DecidableEq, Repr

instance : Inhabited Order :=
  ⟨⟨0, "", Side.BUY, OrderType.MARKET, OrderStatus.REJECTED, 0, 0, 0, 0, false⟩⟩

namespace Order

/-- `Order::getRemainingQuantity()` = `quantity_ - filledQuantity_`. -/
def getRemainingQuantity (o : Order) : Quantity := o.quantity - o.filledQuantity

/-- `Order::isActive()`. -/
def isActive (o : Order) : Bool :=
  o.status = OrderStatus.ACTIVE ∨ o.status = OrderStatus.PARTIALLY_FILLED

/-- `Order::isFilled()`. -/
def isFilled (o : Order) : Bool := o.status = OrderStatus.FILLED

/-- `Order::isCancelled()`. -/
def isCancelled (o : Order) : Bool := o.status = OrderStatus.CANCELLED

/-- Virtual `Order::isTriggerOrder()`: `true` exactly for the
`StopOrder` / `StopLimitOrder` subclasses. -/
def isTriggerOrder (o : Order) : Bool :=
  o.type = OrderType.STOP ∨ o.type = OrderType.STOP_LIMIT

/-- Virtual `Order::isTriggered()`: the base class returns `false`. -/
def isTriggered (o : Order) : Bool := o.isTriggerOrder && o.triggered

/-- The `Order::Order` constructor (Order.cpp): validation can set
`REJECTED`; non-stop kinds then become `ACTIVE`, stop kinds stay `NEW`. -/
def construct (id : OrderId) (symbol : String) (side : Side) (type : OrderType)
    (quantity : Quantity) (price : Price) (stopPrice : Price) : Order :=
  let base : Order :=
    ⟨id, symbol, side, type, OrderStatus.NEW, quantity, 0, price, stopPrice, false⟩
  if quantity = 0 then
    { base with status := OrderStatus.REJECTED }
  else if (type = OrderType.LIMIT ∨ type = OrderType.STOP_LIMIT) ∧ price = 0 then
    { base with status := OrderStatus.REJECTED }
  else if (type = OrderType.STOP ∨ type = OrderType.STOP_LIMIT) ∧ stopPrice = 0 then
    { base with status := OrderStatus.REJECTED }
  else if type ≠ OrderType.STOP ∧ type ≠ OrderType.STOP_LIMIT then
    { base with status := OrderStatus.ACTIVE }
  else
    base

/-- `LimitOrder` constructor (Order.h). -/
def mkLimitOrder (id : OrderId) (symbol : String) (side : Side)
    (quantity : Quantity) (price : Price) : Order :=
  construct id symbol side OrderType.LIMIT quantity price 0

/-- `MarketOrder` constructor (Order.h). -/
def mkMarketOrder (id : OrderId) (symbol : String) (side : Side)
    (quantity : Quantity) : Order :=
  construct id symbol side OrderType.MARKET quantity 0 0

/-- `StopOrder` constructor (Order.h): limit price is `PRICE_ZERO`. -/
def mkStopOrder (id : OrderId) (symbol : String) (side : Side)
    (quantity : Quantity) (stopPrice : Price) : Order :=
  construct id symbol side OrderType.STOP quantity 0 stopPrice

/-- `StopLimitOrder` constructor (Order.h). -/
def mkStopLimitOrder (id : OrderId) (symbol : String) (side : Side)
    (quantity : Quantity) (price : Price) (stopPrice : Price) : Order :=
  construct id symbol side OrderType.STOP_LIMIT quantity price stopPrice

/-- `Order::fill` (Order.cpp): returns the C++ `bool` together with the
mutated object. -/
def fill (o : Order) (quantity : Quantity) (_executionPrice : Price) :
    Bool × Order :=
  if ¬ o.isActive then
    (false, o)
  else if quantity > o.getRemainingQuantity then
    (false, o)
  else
    let f := o.filledQuantity + quantity
    (true, { o with
      filledQuantity := f,
      status := if f = o.quantity then OrderStatus.FILLED
                else OrderStatus.PARTIALLY_FILLED })

/-- `Order::cancel` (Order.cpp): only active orders change status. -/
def cancel (o : Order) : Order :=
  if o.isActive then { o with status := OrderStatus.CANCELLED } else o

/-- `Order::modify` (Order.cpp). -/
def modify (o : Order) (newQuantity : Quantity) (newPrice newStopPrice : Price) :
    Bool × Order :=
  if ¬ o.isActive then
    (false, o)
  else if newQuantity < o.filledQuantity then
    (false, o)
  else
    (true, { o with
      quantity := newQuantity,
      price := if o.type = OrderType.LIMIT ∨ o.type = OrderType.STOP_LIMIT
               then newPrice else o.price,
      stopPrice := if o.type = OrderType.STOP ∨ o.type = OrderType.STOP_LIMIT
                   then newStopPrice else o.stopPrice })

/-- Virtual `checkStopTrigger` (Order.cpp): the `StopOrder` and
`StopLimitOrder` overrides share the same body; the base class returns
`false` without touching anything. -/
def checkStopTrigger (o : Order) (lastTradePrice : Price) : Bool × Order :=
  if o.type = OrderType.STOP ∨ o.type = OrderType.STOP_LIMIT then
    if o.triggered then
      (false, o)
    else if (o.side = Side.BUY ∧ lastTradePrice ≥ o.stopPrice) ∨
            (o.side = Side.SELL ∧ lastTradePrice ≤ o.stopPrice) then
      (true, { o with triggered := true })
    else
      (false, o)
  else
    (false, o)

end Order

/-- A `Trade` record (OrderBook.h), without the wall-clock timestamp. -/
structure Trade where
  buyOrderId : OrderId
  sellOrderId : OrderId
  symbol : String
  quantity : Quantity
  price : Price
deriving DecidableEq, Repr

/-- A `PriceLevel` (OrderBook.h); `orders` holds arena indices in FIFO
order. -/
structure PriceLevel where
  price : Price
  orders : List Nat
  totalQuantity : Quantity
deriving DecidableEq, Repr

/-- The whole `OrderBook` object.  `store` is the arena of all `Order`
objects ever passed to `processOrder`; `orders`, the level lists and
`stopOrders` refer into it by index, mirroring the shared pointers. -/
structure EngineState where
  symbol : String
  lastTradePrice : Price
  store : List Order
  orders : List (OrderId × Nat)
  buyLevels : List (Price × PriceLevel)
  sellLevels : List (Price × PriceLevel)
  stopOrders : List Nat
deriving DecidableEq, Repr

/-- `OrderBook::OrderBook(symbol)`. -/
def initOrderBook (symbol : String) : EngineState :=
  ⟨symbol, 0, [], [], [], [], []⟩

/-- `unordered_map::find` on the order index. -/
def lookupAssoc : List (OrderId × Nat) → OrderId → Option Nat
  | [], _ => none
  | (k, v) :: rest, id => if k = id then some v else lookupAssoc rest id

/-- `orders_[id] = order`: overwrite if present, insert otherwise. -/
def insertAssoc : List (OrderId × Nat) → OrderId → Nat → List (OrderId × Nat)
  | [], id, v => [(id, v)]
  | (k, w) :: rest, id, v =>
    if k = id then (k, v) :: rest else (k, w) :: insertAssoc rest id v

/-- Read an order through an arena index (a dereference of the shared
pointer). -/
def getStore (s : EngineState) (i : Nat) : Order := s.store.getD i default

/-- Write an order back through an arena index (a mutation seen by every
holder of the shared pointer). -/
def setStore (s : EngineState) (i : Nat) (o : Order) : EngineState :=
  { s with store := s.store.set i o }

/-- `OrderBook::createTrade`. -/
def createTrade (s : EngineState) (buyIdx sellIdx : Nat) (quantity : Quantity)
    (price : Price) : Trade :=
  ⟨(getStore s buyIdx).id, (getStore s sellIdx).id, s.symbol, quantity, price⟩

/-- The inner `while (!level.orders.empty() && order->getRemainingQuantity() > 0)`
loop of `OrderBook::matchAgainstBook` (both overloads share it; `isBuy`
records which side the incoming order plays in `createTrade`).  Returns
the trades emitted at this level, the state, and the level's surviving
order list and `totalQuantity`; `none` when the fuel runs out, i.e. the
C++ loop did not finish within `fuel` iterations. -/
def whileLevel (isBuy : Bool) (lvlPrice : Price) :
    Nat → EngineState → Nat → List Nat → Quantity →
    Option (List Trade × EngineState × List Nat × Quantity)
  | fuel, s, idx, lvlOrders, lvlQty =>
    if lvlOrders = [] ∨ (getStore s idx).getRemainingQuantity = 0 then
      some ([], s, lvlOrders, lvlQty)
    else
      match fuel, lvlOrders with
      | _, [] => some ([], s, lvlOrders, lvlQty)
      | 0, _ => none
      | n + 1, front :: restOrders =>
        let inc := getStore s idx
        let fo := getStore s front
        let tradeQty := min inc.getRemainingQuantity fo.getRemainingQuantity
        let r1 := fo.fill tradeQty lvlPrice
        if r1.1 then
          let s1 := setStore s front r1.2
          let r2 := (getStore s1 idx).fill tradeQty lvlPrice
          if r2.1 then
            let s2 := setStore s1 idx r2.2
            let tr := if isBuy then createTrade s2 idx front tradeQty lvlPrice
                      else createTrade s2 front idx tradeQty lvlPrice
            let lvlOrders1 := if (getStore s2 front).isFilled then restOrders
                              else front :: restOrders
            match whileLevel isBuy lvlPrice n s2 idx lvlOrders1 (lvlQty - tradeQty) with
            | none => none
            | some (trs, s3, lo, lq) => some (tr :: trs, s3, lo, lq)
          else
            whileLevel isBuy lvlPrice n s1 idx (front :: restOrders) lvlQty
        else
          whileLevel isBuy lvlPrice n s idx (front :: restOrders) lvlQty

/-- The outer `for` loop of `OrderBook::matchAgainstBook` over the price
levels from best outward.  `buyStyle = true` is the `SellCompare`
overload's body (incoming buy: break once `level price > limit`);
`buyStyle = false` is the sell branch of the `BuyCompare` overload
(break once `level price < limit`).  (The buy branch of the `BuyCompare`
overload is dead code: `matchOrder` routes buy orders to the
`SellCompare` overload.) -/
def levelsLoop (buyStyle : Bool) (fuel : Nat) :
    EngineState → Nat → List (Price × PriceLevel) →
    Option (List Trade × EngineState × List (Price × PriceLevel))
  | s, _, [] => some ([], s, [])
  | s, idx, (p, lvl) :: rest =>
    let inc := getStore s idx
    if inc.getRemainingQuantity = 0 then
      some ([], s, (p, lvl) :: rest)
    else if (if buyStyle then p > inc.price else p < inc.price) ∧
            inc.type ≠ OrderType.MARKET then
      some ([], s, (p, lvl) :: rest)
    else
      match whileLevel buyStyle p fuel s idx lvl.orders lvl.totalQuantity with
      | none => none
      | some (tr1, s1, lo, lq) =>
        match levelsLoop buyStyle fuel s1 idx rest with
        | none => none
        | some (tr2, s2, rest1) =>
          if lo = [] then
            some (tr1 ++ tr2, s2, rest1)
          else
            some (tr1 ++ tr2, s2, (p, ⟨lvl.price, lo, lq⟩) :: rest1)

/-- `OrderBook::matchOrder`: buy orders match against the ask book, sell
orders against the bid book. -/
def matchOrderBook (fuel : Nat) (s : EngineState) (idx : Nat) :
    Option (List Trade × EngineState) :=
  if (getStore s idx).side = Side.BUY then
    match levelsLoop true fuel s idx s.sellLevels with
    | none => none
    | some (tr, s1, lv) => some (tr, { s1 with sellLevels := lv })
  else
    match levelsLoop false fuel s idx s.buyLevels with
    | none => none
    | some (tr, s1, lv) => some (tr, { s1 with buyLevels := lv })

/-- Insert an index into a sorted level list (`std::map::operator[]`
followed by `PriceLevel::addOrder`); `desc` picks the bid (`BuyCompare`)
ordering.  A freshly created level is the default `PriceLevel()` whose
`price` field is `0` and is then patched, exactly as in
`OrderBook::addToBook`. -/
def addToLevels (desc : Bool) (p : Price) (idx : Nat) (rem : Quantity) :
    List (Price × PriceLevel) → List (Price × PriceLevel)
  | [] =>
    let lvl : PriceLevel := ⟨0, [], 0⟩
    let lvl1 := if lvl.price = 0 then { lvl with price := p } else lvl
    [(p, { lvl1 with orders := lvl1.orders ++ [idx],
                     totalQuantity := lvl1.totalQuantity + rem })]
  | (q, lvl) :: rest =>
    if q = p then
      let lvl1 := if lvl.price = 0 then { lvl with price := p } else lvl
      (q, { lvl1 with orders := lvl1.orders ++ [idx],
                      totalQuantity := lvl1.totalQuantity + rem }) :: rest
    else if (if desc then q < p else q > p) then
      let lvl1 : PriceLevel := ⟨p, [idx], rem⟩
      (p, lvl1) :: (q, lvl) :: rest
    else
      (q, lvl) :: addToLevels desc p idx rem rest

/-- `PriceLevel::removeOrder` (searches by order id) followed by the
empty-level erasure of `OrderBook::removeFromBook`, on one level list. -/
def removeFromLevels (store : List Order) (p : Price) (id : OrderId) :
    List (Price × PriceLevel) → List (Price × PriceLevel)
  | [] => []
  | (q, lvl) :: rest =>
    if q = p then
      match lvl.orders.find? (fun j => (store.getD j default).id = id) with
      | none => (q, lvl) :: rest
      | some j =>
        let lvl1 : PriceLevel :=
          { lvl with
            orders := lvl.orders.erase j,
            totalQuantity := lvl.totalQuantity - (store.getD j default).getRemainingQuantity }
        if lvl1.orders = [] then rest else (q, lvl1) :: rest
    else
      (q, lvl) :: removeFromLevels store p id rest

/-- `OrderBook::addToBook`. -/
def addToBook (s : EngineState) (idx : Nat) : EngineState :=
  let o := getStore s idx
  if o.side = Side.BUY then
    { s with buyLevels := addToLevels true o.price idx o.getRemainingQuantity s.buyLevels }
  else
    { s with sellLevels := addToLevels false o.price idx o.getRemainingQuantity s.sellLevels }

/-- `OrderBook::removeFromBook`. -/
def removeFromBook (s : EngineState) (idx : Nat) : EngineState :=
  let o := getStore s idx
  if o.side = Side.BUY then
    { s with buyLevels := removeFromLevels s.store o.price o.id s.buyLevels }
  else
    { s with sellLevels := removeFromLevels s.store o.price o.id s.sellLevels }

/-- The sweep of `OrderBook::processTriggerOrders`: walk the stop list,
calling `checkStopTrigger` on each entry (which may set its `triggered_`
flag); return the state, the kept list and the extracted (triggered)
indices in their held order. -/
def sweepStops (p : Price) :
    EngineState → List Nat → EngineState × List Nat × List Nat
  | s, [] => (s, [], [])
  | s, i :: rest =>
    let r := (getStore s i).checkStopTrigger p
    let s1 := setStore s i r.2
    let (s2, kept, ext) := sweepStops p s1 rest
    if r.1 then (s2, kept, i :: ext) else (s2, i :: kept, ext)

/-- The calls of the mutually recursive part of the engine:
`processMarketOrder`, `processLimitOrder`, `processTriggerOrders`, and
the loop of the latter over the extracted orders. -/
inductive ECall where
  | market (idx : Nat)
  | limit (idx : Nat)
  | triggers (p : Price)
  | runTrig (l : List Nat)

/-- The mutually recursive core of `OrderBook`
(`processMarketOrder` / `processLimitOrder` / `processTriggerOrders`),
with explicit fuel: every nested call burns one unit, `none` = out of
fuel.  The bodies are line-for-line the C++ ones. -/
def engineStep : Nat → EngineState → ECall → Option (List Trade × EngineState)
  | 0, _, _ => none
  | fuel + 1, s, ECall.market idx =>
    (match matchOrderBook fuel s idx with
     | none => none
     | some (trades, s1) =>
       let s2 :=
         if (getStore s1 idx).getRemainingQuantity > 0 then
           setStore s1 idx (getStore s1 idx).cancel
         else s1
       match trades.getLast? with
       | none => some (trades, s2)
       | some t =>
         let s3 := { s2 with lastTradePrice := t.price }
         match engineStep fuel s3 (ECall.triggers t.price) with
         | none => none
         | some (tt, s4) => some (trades ++ tt, s4))
  | fuel + 1, s, ECall.limit idx =>
    (match matchOrderBook fuel s idx with
     | none => none
     | some (trades, s1) =>
       let s2 :=
         if (getStore s1 idx).getRemainingQuantity > 0 ∧ (getStore s1 idx).isActive then
           addToBook s1 idx
         else s1
       match trades.getLast? with
       | none => some (trades, s2)
       | some t =>
         let s3 := { s2 with lastTradePrice := t.price }
         match engineStep fuel s3 (ECall.triggers t.price) with
         | none => none
         | some (tt, s4) => some (trades ++ tt, s4))
  | fuel + 1, s, ECall.triggers p =>
    (let (s1, kept, ext) := sweepStops p s s.stopOrders
     engineStep fuel { s1 with stopOrders := kept } (ECall.runTrig ext))
  | _ + 1, s, ECall.runTrig [] => some ([], s)
  | fuel + 1, s, ECall.runTrig (i :: rest) =>
    (let call := if (getStore s i).type = OrderType.STOP then ECall.market i
                 else ECall.limit i
     match engineStep fuel s call with
     | none => none
     | some (tr1, s1) =>
       match engineStep fuel s1 (ECall.runTrig rest) with
       | none => none
       | some (tr2, s2) => some (tr1 ++ tr2, s2))

/-- `OrderBook::processOrder`: symbol and rejection screening, recording
in the order index, then dispatch on the order type (the stop branch
pushes onto the stop list and fires `checkStopTrigger` immediately when a
last trade price exists). -/
def processOrder (fuel : Nat) (s : EngineState) (o : Order) :
    Option (List Trade × EngineState) :=
  if o.symbol ≠ s.symbol then
    some ([], s)
  else if o.status = OrderStatus.REJECTED then
    some ([], s)
  else
    let idx := s.store.length
    let s1 := { s with store := s.store ++ [o],
                       orders := insertAssoc s.orders o.id idx }
    match o.type with
    | OrderType.MARKET => engineStep fuel s1 (ECall.market idx)
    | OrderType.LIMIT => engineStep fuel s1 (ECall.limit idx)
    | _ =>
      let s2 := { s1 with stopOrders := s1.stopOrders ++ [idx] }
      if s2.lastTradePrice ≠ 0 then
        let r := (getStore s2 idx).checkStopTrigger s2.lastTradePrice
        let s3 := setStore s2 idx r.2
        if r.1 then
          if o.type = OrderType.STOP then engineStep fuel s3 (ECall.market idx)
          else engineStep fuel s3 (ECall.limit idx)
        else
          some ([], s3)
      else
        some ([], s2)

/-- `OrderBook::cancelOrder`. -/
def cancelOrder (s : EngineState) (orderId : OrderId) : Bool × EngineState :=
  match lookupAssoc s.orders orderId with
  | none => (false, s)
  | some idx =>
    let o := getStore s idx
    let s1 :=
      if o.isTriggerOrder ∧ ¬ o.isTriggered then
        { s with stopOrders :=
            match s.stopOrders.find? (fun j => (getStore s j).id = orderId) with
            | none => s.stopOrders
            | some j => s.stopOrders.erase j }
      else if o.isActive then
        removeFromBook s idx
      else s
    (true, setStore s1 idx (getStore s1 idx).cancel)

/-- `OrderBook::modifyOrder`. -/
def modifyOrder (fuel : Nat) (s : EngineState) (orderId : OrderId)
    (newQuantity : Quantity) (newPrice newStopPrice : Price) :
    Option (Bool × EngineState) :=
  match lookupAssoc s.orders orderId with
  | none => some (false, s)
  | some idx =>
    let o := getStore s idx
    let s1 := if o.isActive ∧ ¬ o.isTriggerOrder then removeFromBook s idx else s
    let nsp := if o.isTriggerOrder ∧ ¬ o.isTriggered then
                 (if newStopPrice = 0 then o.stopPrice else newStopPrice)
               else newStopPrice
    let r := o.modify newQuantity newPrice nsp
    if ¬ r.1 then
      some (false, if o.isActive ∧ ¬ o.isTriggerOrder then addToBook s1 idx else s1)
    else
      let s2 := setStore s1 idx r.2
      let o1 := r.2
      if o1.isActive ∧ ¬ o1.isTriggerOrder then
        some (true, addToBook s2 idx)
      else if o1.isTriggerOrder ∧ ¬ o1.isTriggered then
        if s2.lastTradePrice ≠ 0 then
          let rt := (getStore s2 idx).checkStopTrigger s2.lastTradePrice
          let s3 := setStore s2 idx rt.2
          if rt.1 then
            match (if o1.type = OrderType.STOP
                   then engineStep fuel s3 (ECall.market idx)
                   else engineStep fuel s3 (ECall.limit idx)) with
            | none => none
            | some (_, s4) => some (true, s4)
          else some (true, s3)
        else some (true, s2)
      else some (true, s2)

/-- `OrderBook::getOrder`. -/
def getOrder (s : EngineState) (orderId : OrderId) : Option Order :=
  match lookupAssoc s.orders orderId with
  | none => none
  | some idx => some (getStore s idx)

/-- `OrderBook::getBestBid`: `0` on an empty bid book. -/
def getBestBid (s : EngineState) : Price :=
  match s.buyLevels with
  | [] => 0
  | (p, _) :: _ => p

/-- `OrderBook::getBestAsk`: `PRICE_INFINITY` on an empty ask book. -/
def getBestAsk (s : EngineState) : Price :=
  match s.sellLevels with
  | [] => PRICE_INFINITY
  | (p, _) :: _ => p

/-- `OrderBook::getVolumeAtPrice`. -/
def getVolumeAtPrice (s : EngineState) (side : Side) (price : Price) : Quantity :=
  let lv := if side = Side.BUY then s.buyLevels else s.sellLevels
  match lv.find? (fun e => e.1 = price) with
  | none => 0
  | some (_, lvl) => lvl.totalQuantity

/-- Submit a list of orders in sequence, collecting each submission's
returned trade list separately. -/
def submitAll (fuel : Nat) (s : EngineState) :
    List Order → Option (List (List Trade) × EngineState)
  | [] => some ([], s)
  | o :: rest =>
    match processOrder fuel s o with
    | none => none
    | some (tr, s1) =>
      match submitAll fuel s1 rest with
      | none => none
      | some (trs, s2) => some (tr :: trs, s2)

/-- The spec's fill-status invariant:
`status = Filled ⇔ filled_qty = initial_qty ∧ initial_qty > 0`. -/
def fillInvariant (o : Order) : Prop :=
  o.status = OrderStatus.FILLED ↔ (o.filledQuantity = o.quantity ∧ 0 < o.quantity)

/-- Bid-side level list sorted the way `BuyCompare` keeps the bid map:
strictly descending prices. -/
def levelsSortedDesc (ls : List (Price × PriceLevel)) : Prop :=
  List.Pairwise (fun a b => b.1 < a.1) ls

/-- Ask-side level list sorted the way `SellCompare` keeps the ask map:
strictly ascending prices. -/
def levelsSortedAsc (ls : List (Price × PriceLevel)) : Prop :=
  List.Pairwise (fun a b => a.1 < b.1) ls

/-! ### Concrete scenario inputs and their intermediate engine states

The state literals below are the exact values the embedded engine reaches
(each `..Step..` lemma later certifies the transition by evaluation). -/

/-- S6 submission 1: `Sell Limit id=1 qty=5 @110`. -/
def s6a : Order := Order.mkLimitOrder 1 "T" Side.SELL 5 110

/-- S6 submission 2: `Buy Stop id=2 qty=3 stop=105`. -/
def s6b : Order := Order.mkStopOrder 2 "T" Side.BUY 3 105

/-- S6 submission 3: `Buy Limit id=3 qty=1 @110`. -/
def s6c : Order := Order.mkLimitOrder 3 "T" Side.BUY 1 110

/-- Engine state after S6 submission 1. -/
def s6w1 : EngineState :=
  ⟨"T", 0,
   [⟨1, "T", Side.SELL, OrderType.LIMIT, OrderStatus.ACTIVE, 5, 0, 110, 0, false⟩],
   [(1, 0)], [], [(110, ⟨110, [0], 5⟩)], []⟩

/-- Engine state after S6 submission 2 (the stop rests untriggered). -/
def s6w2 : EngineState :=
  ⟨"T", 0,
   [⟨1, "T", Side.SELL, OrderType.LIMIT, OrderStatus.ACTIVE, 5, 0, 110, 0, false⟩,
    ⟨2, "T", Side.BUY, OrderType.STOP, OrderStatus.NEW, 3, 0, 0, 105, false⟩],
   [(1, 0), (2, 1)], [], [(110, ⟨110, [0], 5⟩)], [1]⟩

/-- Engine state after S6 submission 3: the stop is marked triggered and
was removed from the stop list, but never executed (status still `NEW`,
nothing filled), and 4 units remain at ask 110. -/
def s6w3 : EngineState :=
  ⟨"T", 110,
   [⟨1, "T", Side.SELL, OrderType.LIMIT, OrderStatus.PARTIALLY_FILLED, 5, 1, 110, 0, false⟩,
    ⟨2, "T", Side.BUY, OrderType.STOP, OrderStatus.NEW, 3, 0, 0, 105, true⟩,
    ⟨3, "T", Side.BUY, OrderType.LIMIT, OrderStatus.FILLED, 1, 1, 110, 0, false⟩],
   [(1, 0), (2, 1), (3, 2)], [], [(110, ⟨110, [0], 4⟩)], []⟩

/-- S3 submissions. -/
def s3a : Order := Order.mkLimitOrder 1 "T" Side.BUY 5 100

/-- S3 submission 2. -/
def s3b : Order := Order.mkLimitOrder 2 "T" Side.SELL 3 103

/-- S3 submission 3. -/
def s3c : Order := Order.mkLimitOrder 3 "T" Side.SELL 8 105

/-- S3 submission 4: the crossing `Buy Limit id=4 qty=4 @104`. -/
def s3d : Order := Order.mkLimitOrder 4 "T" Side.BUY 4 104

/-- Engine state after S3 submission 1. -/
def s3x1 : EngineState :=
  ⟨"T", 0,
   [⟨1, "T", Side.BUY, OrderType.LIMIT, OrderStatus.ACTIVE, 5, 0, 100, 0, false⟩],
   [(1, 0)], [(100, ⟨100, [0], 5⟩)], [], []⟩

/-- Engine state after S3 submission 2. -/
def s3x2 : EngineState :=
  ⟨"T", 0,
   [⟨1, "T", Side.BUY, OrderType.LIMIT, OrderStatus.ACTIVE, 5, 0, 100, 0, false⟩,
    ⟨2, "T", Side.SELL, OrderType.LIMIT, OrderStatus.ACTIVE, 3, 0, 103, 0, false⟩],
   [(1, 0), (2, 1)], [(100, ⟨100, [0], 5⟩)], [(103, ⟨103, [1], 3⟩)], []⟩

/-- Engine state after S3 submission 3. -/
def s3x3 : EngineState :=
  ⟨"T", 0,
   [⟨1, "T", Side.BUY, OrderType.LIMIT, OrderStatus.ACTIVE, 5, 0, 100, 0, false⟩,
    ⟨2, "T", Side.SELL, OrderType.LIMIT, OrderStatus.ACTIVE, 3, 0, 103, 0, false⟩,
    ⟨3, "T", Side.SELL, OrderType.LIMIT, OrderStatus.ACTIVE, 8, 0, 105, 0, false⟩],
   [(1, 0), (2, 1), (3, 2)], [(100, ⟨100, [0], 5⟩)],
   [(103, ⟨103, [1], 3⟩), (105, ⟨105, [2], 8⟩)], []⟩

/-- Engine state after S3 submission 4: id=2 fully consumed, residual 1 of
id=4 resting at bid 104. -/
def s3x4 : EngineState :=
  ⟨"T", 103,
   [⟨1, "T", Side.BUY, OrderType.LIMIT, OrderStatus.ACTIVE, 5, 0, 100, 0, false⟩,
    ⟨2, "T", Side.SELL, OrderType.LIMIT, OrderStatus.FILLED, 3, 3, 103, 0, false⟩,
    ⟨3, "T", Side.SELL, OrderType.LIMIT, OrderStatus.ACTIVE, 8, 0, 105, 0, false⟩,
    ⟨4, "T", Side.BUY, OrderType.LIMIT, OrderStatus.PARTIALLY_FILLED, 4, 3, 104, 0, false⟩],
   [(1, 0), (2, 1), (3, 2), (4, 3)],
   [(104, ⟨104, [3], 1⟩), (100, ⟨100, [0], 5⟩)], [(105, ⟨105, [2], 8⟩)], []⟩

/-- Non-termination scenario, submission 1: `Sell Stop id=1 qty=7 stop=95`. -/
def c3Stop : Order := Order.mkStopOrder 1 "S" Side.SELL 7 95

/-- Non-termination scenario, submission 2: `Buy Limit id=2 qty=10 @90`. -/
def c3Rest : Order := Order.mkLimitOrder 2 "S" Side.BUY 10 90

/-- Non-termination scenario, submission 3: `Sell Limit id=3 qty=3 @90`,
whose trade at 90 triggers the sell stop. -/
def c3Cross : Order := Order.mkLimitOrder 3 "S" Side.SELL 3 90

/-- Engine state after the first c3 submission. -/
def c3d1 : EngineState :=
  ⟨"S", 0,
   [⟨1, "S", Side.SELL, OrderType.STOP, OrderStatus.NEW, 7, 0, 0, 95, false⟩],
   [(1, 0)], [], [], [0]⟩

/-- Engine state after the first two c3 submissions: the untriggered sell
stop is held, a buy of 10 rests at 90. -/
def c3Pre : EngineState :=
  ⟨"S", 0,
   [⟨1, "S", Side.SELL, OrderType.STOP, OrderStatus.NEW, 7, 0, 0, 95, false⟩,
    ⟨2, "S", Side.BUY, OrderType.LIMIT, OrderStatus.ACTIVE, 10, 0, 90, 0, false⟩],
   [(1, 0), (2, 1)], [(90, ⟨90, [1], 10⟩)], [], [0]⟩

/-- `c3Pre` with `c3Cross` recorded, i.e. the state on which
`processOrder` enters `processLimitOrder`. -/
def c3s1 : EngineState :=
  { c3Pre with store := c3Pre.store ++ [c3Cross],
               orders := [(1, 0), (2, 1), (3, 2)] }

/-- State of the c3 run after `matchOrder` and the last-trade-price
update, just before `processTriggerOrders`. -/
def c3s4 : EngineState :=
  ⟨"S", 90,
   [⟨1, "S", Side.SELL, OrderType.STOP, OrderStatus.NEW, 7, 0, 0, 95, false⟩,
    ⟨2, "S", Side.BUY, OrderType.LIMIT, OrderStatus.PARTIALLY_FILLED, 10, 3, 90, 0, false⟩,
    ⟨3, "S", Side.SELL, OrderType.LIMIT, OrderStatus.FILLED, 3, 3, 90, 0, false⟩],
   [(1, 0), (2, 1), (3, 2)], [(90, ⟨90, [1], 7⟩)], [], [0]⟩

/-- State of the c3 run after the sweep extracted the sell stop (index 0):
it is `triggered` but its status is still `NEW`, so `fill` on it can never
succeed while its remaining quantity stays positive — the inner matching
loop that `processMarketOrder` now enters cannot make progress. -/
def c3s5 : EngineState :=
  ⟨"S", 90,
   [⟨1, "S", Side.SELL, OrderType.STOP, OrderStatus.NEW, 7, 0, 0, 95, true⟩,
    ⟨2, "S", Side.BUY, OrderType.LIMIT, OrderStatus.PARTIALLY_FILLED, 10, 3, 90, 0, false⟩,
    ⟨3, "S", Side.SELL, OrderType.LIMIT, OrderStatus.FILLED, 3, 3, 90, 0, false⟩],
   [(1, 0), (2, 1), (3, 2)], [(90, ⟨90, [1], 7⟩)], [], []⟩

/-- State of the c3 run right after the inner matching loop of the third
submission (the level list still holds its pre-loop totals). -/
def c3s2 : EngineState :=
  ⟨"S", 0,
   [⟨1, "S", Side.SELL, OrderType.STOP, OrderStatus.NEW, 7, 0, 0, 95, false⟩,
    ⟨2, "S", Side.BUY, OrderType.LIMIT, OrderStatus.PARTIALLY_FILLED, 10, 3, 90, 0, false⟩,
    ⟨3, "S", Side.SELL, OrderType.LIMIT, OrderStatus.FILLED, 3, 3, 90, 0, false⟩],
   [(1, 0), (2, 1), (3, 2)], [(90, ⟨90, [1], 10⟩)], [], [0]⟩

/-- State of the c3 run after `matchOrder` wrote the updated bid level
back (7 left at 90), before the last-trade-price update. -/
def c3s3 : EngineState :=
  ⟨"S", 0,
   [⟨1, "S", Side.SELL, OrderType.STOP, OrderStatus.NEW, 7, 0, 0, 95, false⟩,
    ⟨2, "S", Side.BUY, OrderType.LIMIT, OrderStatus.PARTIALLY_FILLED, 10, 3, 90, 0, false⟩,
    ⟨3, "S", Side.SELL, OrderType.LIMIT, OrderStatus.FILLED, 3, 3, 90, 0, false⟩],
   [(1, 0), (2, 1), (3, 2)], [(90, ⟨90, [1], 7⟩)], [], [0]⟩

/-- Duplicate-id scenario: first submission `Buy Limit id=1 qty=10 @100`. -/
def c6First : Order := Order.mkLimitOrder 1 "T" Side.BUY 10 100

/-- Duplicate-id scenario: second submission reuses id=1
(`Sell Limit id=1 qty=5 @100`). -/
def c6Dup : Order := Order.mkLimitOrder 1 "T" Side.SELL 5 100

/-- Engine state after `c6First`. -/
def c6e1 : EngineState :=
  ⟨"T", 0,
   [⟨1, "T", Side.BUY, OrderType.LIMIT, OrderStatus.ACTIVE, 10, 0, 100, 0, false⟩],
   [(1, 0)], [(100, ⟨100, [0], 10⟩)], [], []⟩

/-- Engine state after the duplicate submission: it traded 5 against the
resting order with the same id, and the order index now points to the new
(sell) order. -/
def c6e2 : EngineState :=
  ⟨"T", 100,
   [⟨1, "T", Side.BUY, OrderType.LIMIT, OrderStatus.PARTIALLY_FILLED, 10, 5, 100, 0, false⟩,
    ⟨1, "T", Side.SELL, OrderType.LIMIT, OrderStatus.FILLED, 5, 5, 100, 0, false⟩],
   [(1, 1)], [(100, ⟨100, [0], 5⟩)], [], []⟩

/-- Failed-modify scenario: second submission `Sell Limit id=2 qty=4 @100`
partially fills the resting buy. -/
def c7Sell : Order := Order.mkLimitOrder 2 "T" Side.SELL 4 100

/-- Engine state after `c6First` then `c7Sell`: id=1 rests with 6
remaining (4 filled). -/
def c7g2 : EngineState :=
  ⟨"T", 100,
   [⟨1, "T", Side.BUY, OrderType.LIMIT, OrderStatus.PARTIALLY_FILLED, 10, 4, 100, 0, false⟩,
    ⟨2, "T", Side.SELL, OrderType.LIMIT, OrderStatus.FILLED, 4, 4, 100, 0, false⟩],
   [(1, 0), (2, 1)], [(100, ⟨100, [0], 6⟩)], [], []⟩

/-- Cancel-of-filled scenario submissions. -/
def c8Buy : Order := Order.mkLimitOrder 1 "T" Side.BUY 5 100

/-- Cancel-of-filled scenario, submission 2. -/
def c8Sell : Order := Order.mkLimitOrder 2 "T" Side.SELL 5 100

/-- Engine state after `c8Buy`. -/
def c8h1 : EngineState :=
  ⟨"T", 0,
   [⟨1, "T", Side.BUY, OrderType.LIMIT, OrderStatus.ACTIVE, 5, 0, 100, 0, false⟩],
   [(1, 0)], [(100, ⟨100, [0], 5⟩)], [], []⟩

/-- Engine state after `c8Buy` and `c8Sell`: both orders `FILLED`, both
still in the order index, book empty. -/
def c8h2 : EngineState :=
  ⟨"T", 100,
   [⟨1, "T", Side.BUY, OrderType.LIMIT, OrderStatus.FILLED, 5, 5, 100, 0, false⟩,
    ⟨2, "T", Side.SELL, OrderType.LIMIT, OrderStatus.FILLED, 5, 5, 100, 0, false⟩],
   [(1, 0), (2, 1)], [], [], []⟩

/-- Stop-cancel scenario: `Buy Stop id=1 qty=3 stop=105` submitted to a
fresh book. -/
def c1StopOrd : Order := Order.mkStopOrder 1 "T" Side.BUY 3 105

/-- Engine state holding just the untriggered buy stop. -/
def c1k1 : EngineState :=
  ⟨"T", 0,
   [⟨1, "T", Side.BUY, OrderType.STOP, OrderStatus.NEW, 3, 0, 0, 105, false⟩],
   [(1, 0)], [], [], [0]⟩

/-- `c1k1` after `cancelOrder 1`: the stop left the stop list but its
status is still `NEW`. -/
def c1k2 : EngineState :=
  ⟨"T", 0,
   [⟨1, "T", Side.BUY, OrderType.STOP, OrderStatus.NEW, 3, 0, 0, 105, false⟩],
   [(1, 0)], [], [], []⟩

/-- A book whose best bid is a genuine resting order at price `0` — its
`getBestBid` answer coincides with the empty book's sentinel. -/
def zeroBidBook : EngineState :=
  ⟨"T", 0,
   [⟨1, "T", Side.BUY, OrderType.LIMIT, OrderStatus.ACTIVE, 1, 0, 0, 0, false⟩],
   [(1, 0)], [(0, ⟨0, [0], 1⟩)], [], []⟩

/-- A two-level book on each side, sorted the way the engine keeps its
maps, used to witness the best-price characterisations. -/
def twoLevelBook : EngineState :=
  ⟨"T", 0, [], [],
   [(104, ⟨104, [], 1⟩), (100, ⟨100, [], 5⟩)],
   [(103, ⟨103, [], 3⟩), (105, ⟨105, [], 8⟩)], []⟩

/-- State after submitting `Buy Limit id=1 qty=5 @50` to a fresh book
(used to witness the index-overwrite theorem). -/
def c6m1 : EngineState :=
  ⟨"T", 0,
   [⟨1, "T", Side.BUY, OrderType.LIMIT, OrderStatus.ACTIVE, 5, 0, 50, 0, false⟩],
   [(1, 0)], [(50, ⟨50, [0], 5⟩)], [], []⟩

/-! ### Step lemmas: each concrete submission evaluated by the kernel -/

theorem stepS6a : processOrder 8 (initOrderBook "T") s6a = some ([], s6w1) := by
  decide

theorem stepS6b : processOrder 8 s6w1 s6b = some ([], s6w2) := by
  decide

theorem stepS6c : processOrder 8 s6w2 s6c = some ([⟨3, 1, "T", 1, 110⟩], s6w3) := by
  decide

theorem stepS3a : processOrder 8 (initOrderBook "T") s3a = some ([], s3x1) := by
  decide

theorem stepS3b : processOrder 8 s3x1 s3b = some ([], s3x2) := by
  decide

theorem stepS3c : processOrder 8 s3x2 s3c = some ([], s3x3) := by
  decide

theorem stepS3d : processOrder 8 s3x3 s3d = some ([⟨4, 2, "T", 3, 103⟩], s3x4) := by
  decide

theorem stepC3a : processOrder 8 (initOrderBook "S") c3Stop = some ([], c3d1) := by
  decide

theorem stepC3b : processOrder 8 c3d1 c3Rest = some ([], c3Pre) := by
  decide

theorem stepC6a : processOrder 8 (initOrderBook "T") c6First = some ([], c6e1) := by
  decide

theorem stepC6b : processOrder 8 c6e1 c6Dup = some ([⟨1, 1, "T", 5, 100⟩], c6e2) := by
  decide

theorem stepC7b : processOrder 8 c6e1 c7Sell = some ([⟨1, 2, "T", 4, 100⟩], c7g2) := by
  decide

theorem stepC8a : processOrder 8 (initOrderBook "T") c8Buy = some ([], c8h1) := by
  decide

theorem stepC8b : processOrder 8 c8h1 c8Sell = some ([⟨1, 2, "T", 5, 100⟩], c8h2) := by
  decide

/-! ### Claim theorems -/

/-- Claim C1 (code evaluated at the failing input): a validly constructed
buy stop has status `New`; `checkStopTrigger 110` fires (returns `true`)
yet the status stays `New` and never becomes `Active`; `Order::cancel` on
the untriggered stop is a no-op, and the book-level `cancelOrder` removes
it from the stop list and returns `true` but likewise leaves the status
`New` instead of `Cancelled`. -/
theorem C1_stop_lifecycle_eval :
    c1StopOrd.status = OrderStatus.NEW ∧
    (c1StopOrd.checkStopTrigger 110).1 = true ∧
    (c1StopOrd.checkStopTrigger 110).2.status = OrderStatus.NEW ∧
    ¬ (c1StopOrd.checkStopTrigger 110).2.status = OrderStatus.ACTIVE ∧
    Order.cancel c1StopOrd = c1StopOrd ∧
    ¬ (Order.cancel c1StopOrd).status = OrderStatus.CANCELLED ∧
    processOrder 8 (initOrderBook "T") c1StopOrd = some ([], c1k1) ∧
    cancelOrder c1k1 1 = (true, c1k2) ∧
    (getOrder c1k2 1).map Order.status = some OrderStatus.NEW := by
  decide

/-- Claim C2 (code evaluated at scenario S6): the third submission
returns only the single trade `(buy=3, sell=1, qty=1, price=110)`; the
triggered stop id=2 is extracted from the stop list (`triggered = true`)
but never executes — its status stays `New` with nothing filled — and
`volume_at(Sell,110)` is `4`, not the `1` the spec expects. -/
theorem C2_stop_cascade_eval :
    submitAll 8 (initOrderBook "T") [s6a, s6b, s6c] =
      some ([[], [], [⟨3, 1, "T", 1, 110⟩]], s6w3) ∧
    getVolumeAtPrice s6w3 Side.SELL 110 = 4 ∧
    (getOrder s6w3 2).map (fun o => (o.status, o.filledQuantity, o.triggered)) =
      some (OrderStatus.NEW, 0, true) := by
  refine ⟨?_, by decide, by decide⟩
  simp [submitAll, stepS6a, stepS6b, stepS6c]

/-- Claim C4 (scenario S3, confirmed): the crossing submission returns
exactly the trade `(buy=4, sell=2, qty=3, price=103)`, the residual 1 of
id=4 rests, `best_bid = 104` and `volume_at(Buy,104) = 1`. -/
theorem C4_crossing_limit_eval :
    submitAll 8 (initOrderBook "T") [s3a, s3b, s3c, s3d] =
      some ([[], [], [], [⟨4, 2, "T", 3, 103⟩]], s3x4) ∧
    getBestBid s3x4 = 104 ∧
    getVolumeAtPrice s3x4 Side.BUY 104 = 1 ∧
    (getOrder s3x4 4).map (fun o => (o.status, o.getRemainingQuantity)) =
      some (OrderStatus.PARTIALLY_FILLED, 1) := by
  refine ⟨?_, by decide, by decide, by decide⟩
  simp [submitAll, stepS3a, stepS3b, stepS3c, stepS3d]

/-- Claim C5 counterexample: start from `Limit Buy qty=5`, fill 2 (the
invariant holds), then `modify(new_qty = 2)`: the modify succeeds, leaving
`filled_qty = initial_qty = 2 > 0` while the status is still
`PartiallyFilled` — the claimed invariant is not preserved by modify. -/
theorem C5_invariant_counterexample :
    ((Order.mkLimitOrder 1 "A" Side.BUY 5 50).fill 2 50).1 = true ∧
    fillInvariant ((Order.mkLimitOrder 1 "A" Side.BUY 5 50).fill 2 50).2 ∧
    ((((Order.mkLimitOrder 1 "A" Side.BUY 5 50).fill 2 50).2).modify 2 55 0).1 = true ∧
    ¬ fillInvariant ((((Order.mkLimitOrder 1 "A" Side.BUY 5 50).fill 2 50).2).modify 2 55 0).2 := by
  refine ⟨by decide, ?_, by decide, ?_⟩
  · unfold fillInvariant
    decide
  · unfold fillInvariant
    decide

/-- Claim C6 counterexample: with `Buy Limit id=1 qty=10 @100` resting,
submitting `Sell Limit id=1 qty=5 @100` (a known id) is **not** rejected:
it trades 5 against the resting order, the level drops to 5, and
`getOrder 1` now returns the new sell order instead of the original buy. -/
theorem C6_duplicate_id_counterexample :
    submitAll 8 (initOrderBook "T") [c6First, c6Dup] =
      some ([[], [⟨1, 1, "T", 5, 100⟩]], c6e2) ∧
    getVolumeAtPrice c6e2 Side.BUY 100 = 5 ∧
    (getOrder c6e2 1).map (fun o => (o.side, o.status)) =
      some (Side.SELL, OrderStatus.FILLED) ∧
    ¬ ([⟨1, 1, "T", 5, 100⟩] = ([] : List Trade) ∧
       getVolumeAtPrice c6e2 Side.BUY 100 = getVolumeAtPrice c6e1 Side.BUY 100 ∧
       getOrder c6e2 1 = getOrder c6e1 1) := by
  refine ⟨?_, by decide, by decide, by decide⟩
  simp [submitAll, stepC6a, stepC6b]

/-- Claim C7 counterexample: id=1 rests partially filled (4 of 10); the
modify to quantity 2 fails validation, `modifyOrder` returns `false`, and
the original order is **restored**: still `PartiallyFilled`, still
retrievable, still resting with its 6 remaining at level 100 — not
cancelled and not absent. -/
theorem C7_failed_modify_counterexample :
    submitAll 8 (initOrderBook "T") [c6First, c7Sell] =
      some ([[], [⟨1, 2, "T", 4, 100⟩]], c7g2) ∧
    modifyOrder 8 c7g2 1 2 100 0 = some (false, c7g2) ∧
    (getOrder c7g2 1).map Order.status = some OrderStatus.PARTIALLY_FILLED ∧
    getVolumeAtPrice c7g2 Side.BUY 100 = 6 ∧
    ¬ ((getOrder c7g2 1).map Order.status = some OrderStatus.CANCELLED ∨
       getVolumeAtPrice c7g2 Side.BUY 100 = 0) := by
  refine ⟨?_, by decide, by decide, by decide, by decide⟩
  simp [submitAll, stepC6a, stepC7b]

/-- Claim C8 counterexample: both orders fully fill, id=1 is `Filled`
(terminal), yet `cancelOrder 1` still returns `true` — the claim says it
must return `false` for a known id whose order is already filled. -/
theorem C8_cancel_counterexample :
    submitAll 8 (initOrderBook "T") [c8Buy, c8Sell] =
      some ([[], [⟨1, 2, "T", 5, 100⟩]], c8h2) ∧
    (getOrder c8h2 1).map Order.status = some OrderStatus.FILLED ∧
    (cancelOrder c8h2 1).1 = true ∧
    ¬ (cancelOrder c8h2 1).1 = false := by
  refine ⟨?_, by decide, by decide, by decide⟩
  simp [submitAll, stepC8a, stepC8b]

/-- Claim C8 as amended: `cancelOrder` returns `true` iff the id is in
the order index at all — the index never drops an entry, and the status
of the found order is not consulted for the return value. -/
theorem C8_cancel_amended (s : EngineState) (orderId : OrderId) :
    (cancelOrder s orderId).1 = (lookupAssoc s.orders orderId).isSome := by
  unfold cancelOrder
  cases h : lookupAssoc s.orders orderId <;> simp [h]

/-- Claim C10 (confirmed): a submission whose symbol differs from the
engine's, or whose status is already `Rejected` from construction,
returns the empty trade list and the state unchanged — in particular
`getOrder` on a previously unknown id still returns `none`. -/
theorem C10_screening (fuel : Nat) (s : EngineState) (o : Order)
    (h : o.symbol ≠ s.symbol ∨ o.status = OrderStatus.REJECTED) :
    processOrder fuel s o = some ([], s) ∧
    (lookupAssoc s.orders o.id = none → getOrder s o.id = none) := by
  constructor
  · unfold processOrder
    by_cases hs : o.symbol = s.symbol
    · rcases h with h | h
      · exact absurd hs h
      · simp [hs, h]
    · simp [hs]
  · intro hl
    unfold getOrder
    simp [hl]

/-- Witness for `C10_screening` at a wrong-symbol order against a fresh
book. -/
theorem C10_screening_witness :
    (Order.mkLimitOrder 1 "X" Side.BUY 5 50).symbol ≠ (initOrderBook "T").symbol ∧
    (processOrder 3 (initOrderBook "T") (Order.mkLimitOrder 1 "X" Side.BUY 5 50) =
        some ([], initOrderBook "T") ∧
     (lookupAssoc (initOrderBook "T").orders 1 = none →
        getOrder (initOrderBook "T") 1 = none)) :=
  ⟨by decide, C10_screening 3 (initOrderBook "T") _ (Or.inl (by decide))⟩



theorem status_ne_filled_of_active (o : Order) (h : o.isActive = true) :
    ¬ o.status = OrderStatus.FILLED := by
  unfold Order.isActive at h
  rcases of_decide_eq_true h with h1 | h1 <;> simp [h1]

theorem construct_fillInvariant (id : OrderId) (sym : String) (side : Side)
    (ty : OrderType) (q : Quantity) (p sp : Price) :
    fillInvariant (Order.construct id sym side ty q p sp) := by
  unfold fillInvariant Order.construct
  split_ifs <;> simp <;> exact fun h => h.symm

theorem fill_fillInvariant (o : Order) (q : Quantity) (p : Price)
    (hInv : fillInvariant o) (hq : 0 < o.quantity) :
    fillInvariant (o.fill q p).2 := by
  by_cases h1 : o.isActive = true
  · by_cases h2 : q > o.getRemainingQuantity
    · simpa [Order.fill, h1, h2] using hInv
    · by_cases h3 : o.filledQuantity + q = o.quantity
      · simp [Order.fill, h1, h2, fillInvariant, h3, hq]
      · simp [Order.fill, h1, h2, fillInvariant, h3]
  · simpa [Order.fill, h1] using hInv

theorem cancel_fillInvariant (o : Order) (hInv : fillInvariant o) :
    fillInvariant o.cancel := by
  by_cases h1 : o.isActive = true
  · have hne := status_ne_filled_of_active o h1
    unfold fillInvariant at *
    simp only [Order.cancel, h1, if_true]
    constructor
    · intro h; exact absurd h (by simp)
    · intro hr; exact absurd (hInv.mpr hr) hne
  · simpa [Order.cancel, h1] using hInv

theorem modify_fillInvariant (o : Order) (nq : Quantity) (np nsp : Price)
    (hInv : fillInvariant o) (hnq : nq = o.filledQuantity → nq = 0) :
    fillInvariant (o.modify nq np nsp).2 := by
  by_cases h1 : o.isActive = true
  · by_cases h2 : nq < o.filledQuantity
    · simpa [Order.modify, h1, h2] using hInv
    · have hne := status_ne_filled_of_active o h1
      unfold fillInvariant
      simp only [Order.modify, h1, h2, if_true, if_false]
      constructor
      · intro h; exact absurd h hne
      · rintro ⟨ha, hb⟩
        have ha2 : o.filledQuantity = nq := ha
        have hb2 : 0 < nq := hb
        have h0 : nq = 0 := hnq ha2.symm
        exact False.elim (by simp [h0] at hb2)
  · simpa [Order.modify, h1] using hInv

/-- Claim C5 as amended: the invariant
`status = Filled ⇔ filled_qty = initial_qty ∧ initial_qty > 0` is
established by construction, preserved by cancel, preserved by fill on
orders with positive initial quantity — but preserved by modify only when
the new quantity is not a positive quantity equal to what is already
filled (in that excluded case the status stays Active/PartiallyFilled
although `filled_qty = initial_qty > 0`, as the counterexample shows). -/
theorem C5_invariant_amended (o : Order) (id : OrderId) (sym : String)
    (side : Side) (ty : OrderType) (q fq nq : Quantity) (p sp fp np nsp : Price)
    (hInv : fillInvariant o) :
    fillInvariant (Order.construct id sym side ty q p sp) ∧
    (0 < o.quantity → fillInvariant (o.fill fq fp).2) ∧
    fillInvariant o.cancel ∧
    ((nq = o.filledQuantity → nq = 0) → fillInvariant (o.modify nq np nsp).2) :=
  ⟨construct_fillInvariant id sym side ty q p sp,
   fun hq => fill_fillInvariant o fq fp hInv hq,
   cancel_fillInvariant o hInv,
   fun hnq => modify_fillInvariant o nq np nsp hInv hnq⟩

theorem C5_invariant_amended_witness :
    fillInvariant (⟨1, "A", Side.BUY, OrderType.LIMIT, OrderStatus.PARTIALLY_FILLED,
        5, 2, 50, 0, false⟩ : Order) ∧
    (fillInvariant (Order.construct 9 "A" Side.SELL OrderType.LIMIT 4 70 0) ∧
     (0 < (⟨1, "A", Side.BUY, OrderType.LIMIT, OrderStatus.PARTIALLY_FILLED,
        5, 2, 50, 0, false⟩ : Order).quantity →
       fillInvariant ((⟨1, "A", Side.BUY, OrderType.LIMIT, OrderStatus.PARTIALLY_FILLED,
        5, 2, 50, 0, false⟩ : Order).fill 1 50).2) ∧
     fillInvariant (⟨1, "A", Side.BUY, OrderType.LIMIT, OrderStatus.PARTIALLY_FILLED,
        5, 2, 50, 0, false⟩ : Order).cancel ∧
     ((4 = (⟨1, "A", Side.BUY, OrderType.LIMIT, OrderStatus.PARTIALLY_FILLED,
        5, 2, 50, 0, false⟩ : Order).filledQuantity → (4 : Quantity) = 0) →
       fillInvariant ((⟨1, "A", Side.BUY, OrderType.LIMIT, OrderStatus.PARTIALLY_FILLED,
        5, 2, 50, 0, false⟩ : Order).modify 4 60 0).2)) :=
  ⟨by unfold fillInvariant; decide,
   C5_invariant_amended _ 9 "A" Side.SELL OrderType.LIMIT 4 1 4 70 0 50 60 0
     (by unfold fillInvariant; decide)⟩



/-- Claim C9 (confirmed): the best-price queries use in-band sentinels —
`getBestBid` answers `0` on an empty bid side and the maximum bid price
otherwise; `getBestAsk` answers `PRICE_INFINITY = 2^63 - 1`
(`std::numeric_limits<int64_t>::max()`) on an empty ask side and the
minimum ask price otherwise; and a genuine best bid of price `0`
(`zeroBidBook`) is indistinguishable from an empty bid side. -/
theorem C9_best_price_sentinels (s t : EngineState)
    (hb : s.buyLevels = []) (ha : s.sellLevels = [])
    (sb : levelsSortedDesc t.buyLevels) (sa : levelsSortedAsc t.sellLevels) :
    getBestBid s = 0 ∧
    getBestAsk s = PRICE_INFINITY ∧
    PRICE_INFINITY = 2 ^ 63 - 1 ∧
    (t.buyLevels ≠ [] →
      getBestBid t ∈ t.buyLevels.map Prod.fst ∧
      ∀ p ∈ t.buyLevels.map Prod.fst, p ≤ getBestBid t) ∧
    (t.sellLevels ≠ [] →
      getBestAsk t ∈ t.sellLevels.map Prod.fst ∧
      ∀ p ∈ t.sellLevels.map Prod.fst, getBestAsk t ≤ p) ∧
    getBestBid zeroBidBook = getBestBid s ∧
    zeroBidBook.buyLevels ≠ [] := by
  refine ⟨by simp [getBestBid, hb], by simp [getBestAsk, ha], rfl, ?_, ?_, ?_, by decide⟩
  · intro hne
    cases hbl : t.buyLevels with
    | nil => exact absurd hbl hne
    | cons hd tl =>
      obtain ⟨hdp, hdl⟩ := hd
      rw [hbl] at sb
      rcases List.pairwise_cons.mp sb with ⟨hlt, _⟩
      have hbest : getBestBid t = hdp := by simp [getBestBid, hbl]
      refine ⟨by simp [hbest, hbl], ?_⟩
      intro p hp
      simp only [hbl, List.map_cons, List.mem_cons] at hp
      rcases hp with hp | hp
      · rw [hbest, hp]
      · rcases List.mem_map.mp hp with ⟨e, he, hep⟩
        have h2 : e.1 < hdp := hlt e he
        rw [hbest]
        exact hep ▸ le_of_lt h2
  · intro hne
    cases hbl : t.sellLevels with
    | nil => exact absurd hbl hne
    | cons hd tl =>
      obtain ⟨hdp, hdl⟩ := hd
      rw [hbl] at sa
      rcases List.pairwise_cons.mp sa with ⟨hlt, _⟩
      have hbest : getBestAsk t = hdp := by simp [getBestAsk, hbl]
      refine ⟨by simp [hbest, hbl], ?_⟩
      intro p hp
      simp only [hbl, List.map_cons, List.mem_cons] at hp
      rcases hp with hp | hp
      · rw [hbest, hp]
      · rcases List.mem_map.mp hp with ⟨e, he, hep⟩
        have h2 : hdp < e.1 := hlt e he
        rw [hbest]
        exact hep ▸ le_of_lt h2
  · rw [show getBestBid s = 0 from by simp [getBestBid, hb]]
    decide

theorem C9_best_price_sentinels_witness :
    (initOrderBook "T").buyLevels = [] ∧
    (initOrderBook "T").sellLevels = [] ∧
    levelsSortedDesc twoLevelBook.buyLevels ∧
    levelsSortedAsc twoLevelBook.sellLevels ∧
    (getBestBid (initOrderBook "T") = 0 ∧
     getBestAsk (initOrderBook "T") = PRICE_INFINITY ∧
     PRICE_INFINITY = 2 ^ 63 - 1 ∧
     (twoLevelBook.buyLevels ≠ [] →
       getBestBid twoLevelBook ∈ twoLevelBook.buyLevels.map Prod.fst ∧
       ∀ p ∈ twoLevelBook.buyLevels.map Prod.fst, p ≤ getBestBid twoLevelBook) ∧
     (twoLevelBook.sellLevels ≠ [] →
       getBestAsk twoLevelBook ∈ twoLevelBook.sellLevels.map Prod.fst ∧
       ∀ p ∈ twoLevelBook.sellLevels.map Prod.fst, getBestAsk twoLevelBook ≤ p) ∧
     getBestBid zeroBidBook = getBestBid (initOrderBook "T") ∧
     zeroBidBook.buyLevels ≠ []) :=
  ⟨rfl, rfl, by unfold levelsSortedDesc; decide, by unfold levelsSortedAsc; decide,
   C9_best_price_sentinels (initOrderBook "T") twoLevelBook rfl rfl
     (by unfold levelsSortedDesc; decide) (by unfold levelsSortedAsc; decide)⟩

/-! ### Non-termination of the triggered-stop matching loop (claim C3) -/

theorem fill_of_inactive (o : Order) (q : Quantity) (p : Price)
    (h : o.isActive = false) : o.fill q p = (false, o) := by
  unfold Order.fill
  simp [h]

theorem isActive_of_fill_fst (o : Order) (q : Quantity) (p : Price)
    (h : (o.fill q p).1 = true) : o.isActive = true := by
  by_cases ha : o.isActive = true
  · exact ha
  · rw [fill_of_inactive o q p (by simpa using ha)] at h
    cases h

theorem getStore_setStore_ne (s : EngineState) (i j : Nat) (o : Order)
    (h : i ≠ j) : getStore (setStore s i o) j = getStore s j := by
  unfold getStore setStore
  simp [List.getD, List.getElem?_set_ne h]

/-- The heart of the C3 refutation: once the incoming order held by the
inner matching loop is not active (a triggered stop still has status
`NEW`) while its remaining quantity is positive and the level is
non-empty, the loop makes no progress — `Order::fill` on the incoming
side keeps failing, nothing is popped, and the loop condition stays true
— so no amount of fuel lets it finish. -/
theorem whileLevel_stuck (isBuy : Bool) (p : Price) (fuel : Nat) :
    ∀ (s : EngineState) (idx : Nat) (L : List Nat) (q : Quantity),
    (getStore s idx).isActive = false →
    0 < (getStore s idx).getRemainingQuantity →
    L ≠ [] →
    whileLevel isBuy p fuel s idx L q = none := by
  induction fuel with
  | zero =>
    intro s idx L q h1 h2 h3
    cases L with
    | nil => exact absurd rfl h3
    | cons front rest =>
      unfold whileLevel
      rw [if_neg (by push_neg; exact ⟨by simp, Nat.pos_iff_ne_zero.mp h2⟩)]
  | succ n ih =>
    intro s idx L q h1 h2 h3
    cases L with
    | nil => exact absurd rfl h3
    | cons front rest =>
      unfold whileLevel
      rw [if_neg (by push_neg; exact ⟨by simp, Nat.pos_iff_ne_zero.mp h2⟩)]
      simp only []
      by_cases hf : ((getStore s front).fill
          (min (getStore s idx).getRemainingQuantity
               (getStore s front).getRemainingQuantity) p).1 = true
      · have hact := isActive_of_fill_fst _ _ _ hf
        have hne : front ≠ idx := by
          intro e
          rw [e, h1] at hact
          cases hact
        rw [if_pos hf]
        have hidx : getStore (setStore s front ((getStore s front).fill
            (min (getStore s idx).getRemainingQuantity
                 (getStore s front).getRemainingQuantity) p).2) idx = getStore s idx :=
          getStore_setStore_ne _ _ _ _ hne
        rw [hidx]
        rw [fill_of_inactive _ _ _ h1]
        simp only []
        rw [if_neg (by simp)]
        exact ih _ idx (front :: rest) q (by rw [hidx]; exact h1) (by rw [hidx]; exact h2) (by simp)
      · rw [if_neg hf]
        exact ih s idx (front :: rest) q h1 h2 (by simp)

/-- `processMarketOrder` on an inactive sell order facing a non-empty bid
level it may cross never returns, for any fuel. -/
theorem marketSellStuck (m : Nat) (s : EngineState) (i : Nat) (p : Price)
    (lvl : PriceLevel) (rest : List (Price × PriceLevel))
    (hbl : s.buyLevels = (p, lvl) :: rest)
    (hside : (getStore s i).side = Side.SELL)
    (hact : (getStore s i).isActive = false)
    (hrem : 0 < (getStore s i).getRemainingQuantity)
    (hp : ¬ (p < (getStore s i).price ∧ (getStore s i).type ≠ OrderType.MARKET))
    (hlo : lvl.orders ≠ []) :
    engineStep m s (ECall.market i) = none := by
  cases m with
  | zero => rfl
  | succ m1 =>
    have hll : levelsLoop false m1 s i ((p, lvl) :: rest) = none := by
      unfold levelsLoop
      rw [if_neg (Nat.pos_iff_ne_zero.mp hrem)]
      rw [if_neg (by simpa using hp)]
      rw [whileLevel_stuck false p m1 s i lvl.orders lvl.totalQuantity hact hrem hlo]
    have hmo : matchOrderBook m1 s i = none := by
      unfold matchOrderBook
      rw [if_neg (by rw [hside]; simp)]
      rw [hbl, hll]
    unfold engineStep
    rw [hmo]

/-- Running the trigger list on such a stuck sell stop never returns. -/
theorem runTrigStuck (n : Nat) (s : EngineState) (i : Nat) (p : Price)
    (lvl : PriceLevel) (rest : List (Price × PriceLevel))
    (hbl : s.buyLevels = (p, lvl) :: rest)
    (htype : (getStore s i).type = OrderType.STOP)
    (hside : (getStore s i).side = Side.SELL)
    (hact : (getStore s i).isActive = false)
    (hrem : 0 < (getStore s i).getRemainingQuantity)
    (hp : ¬ (p < (getStore s i).price ∧ (getStore s i).type ≠ OrderType.MARKET))
    (hlo : lvl.orders ≠ []) :
    engineStep n s (ECall.runTrig [i]) = none := by
  cases n with
  | zero => rfl
  | succ n1 =>
    unfold engineStep
    rw [if_pos htype]
    simp only [marketSellStuck n1 s i p lvl rest hbl hside hact hrem hp hlo]

theorem c3W0 (k : Nat) : whileLevel false 90 k c3s2 2 [1] 7 = some ([], c3s2, [1], 7) := by
  unfold whileLevel
  rw [if_pos]
  decide

theorem c3W1 (k : Nat) :
    whileLevel false 90 (k + 1) c3s1 2 [1] 10 =
      some ([⟨2, 3, "S", 3, 90⟩], c3s2, [1], 7) := by
  rw [show whileLevel false 90 (k + 1) c3s1 2 [1] 10 =
      (match whileLevel false 90 k c3s2 2 [1] 7 with
       | none => none
       | some (trs, s3, lo, lq) => some (⟨2, 3, "S", 3, 90⟩ :: trs, s3, lo, lq)) from rfl]
  rw [c3W0 k]

theorem c3Lnil (k : Nat) : levelsLoop false k c3s2 2 [] = some ([], c3s2, []) := by
  unfold levelsLoop
  rfl

theorem c3L1 (k : Nat) :
    levelsLoop false (k + 1) c3s1 2 c3s1.buyLevels =
      some ([⟨2, 3, "S", 3, 90⟩], c3s2, [(90, ⟨90, [1], 7⟩)]) := by
  show levelsLoop false (k + 1) c3s1 2 [(90, ⟨90, [1], 10⟩)] = _
  unfold levelsLoop
  rw [if_neg (by decide), if_neg (by decide)]
  rw [show ((⟨90, [1], 10⟩ : PriceLevel).orders) = [1] from rfl,
      show ((⟨90, [1], 10⟩ : PriceLevel).totalQuantity) = 10 from rfl]
  rw [c3W1 k]
  simp only [c3Lnil]
  decide

theorem c3M1 (k : Nat) :
    matchOrderBook (k + 1) c3s1 2 = some ([⟨2, 3, "S", 3, 90⟩], c3s3) := by
  unfold matchOrderBook
  rw [if_neg (by decide)]
  rw [c3L1 k]
  decide

theorem c3T1 (k : Nat) :
    engineStep (k + 1) c3s4 (ECall.triggers 90) = engineStep k c3s5 (ECall.runTrig [0]) := rfl

theorem c3E1 (k : Nat) : engineStep (k + 2) c3s1 (ECall.limit 2) = none := by
  have hrun : engineStep (k + 1) c3s4 (ECall.triggers 90) = none := by
    rw [c3T1 k]
    exact runTrigStuck k c3s5 0 90 ⟨90, [1], 7⟩ [] rfl (by decide) (by decide)
      (by decide) (by decide) (by decide) (by decide)
  show engineStep ((k + 1) + 1) c3s1 (ECall.limit 2) = none
  unfold engineStep
  rw [c3M1 k]
  show (match engineStep (k + 1) c3s4 (ECall.triggers 90) with
        | none => none
        | some (tt, s4) => some ([(⟨2, 3, "S", 3, 90⟩ : Trade)] ++ tt, s4)) = none
  rw [hrun]

/-- Claim C3 (code_bug): submissions do **not** always terminate.  After
`Sell Stop id=1 qty=7 stop=95` and `Buy Limit id=2 qty=10 @90`, the
submission of `Sell Limit id=3 qty=3 @90` trades at 90, triggers the sell
stop, and re-enters the matcher with an order whose status is still `New`:
the resting buy is marked filled without a trade and the inner matching
loop then repeats for ever — here, `processOrder` returns out-of-fuel
(`none`) for **every** fuel bound. -/
theorem C3_submission_nonterminating :
    submitAll 8 (initOrderBook "S") [c3Stop, c3Rest] = some ([[], []], c3Pre) ∧
    ∀ fuel : Nat, processOrder fuel c3Pre c3Cross = none := by
  constructor
  · simp [submitAll, stepC3a, stepC3b]
  · intro fuel
    rw [show processOrder fuel c3Pre c3Cross = engineStep fuel c3s1 (ECall.limit 2) from rfl]
    match fuel with
    | 0 => rfl
    | 1 => decide
    | (n + 2) => exact c3E1 n


theorem setStore_orders (s : EngineState) (i : Nat) (o : Order) :
    (setStore s i o).orders = s.orders := rfl

theorem addToBook_orders (s : EngineState) (idx : Nat) :
    (addToBook s idx).orders = s.orders := by
  unfold addToBook
  by_cases h : (getStore s idx).side = Side.BUY <;> simp [h]

theorem addToBook_store (s : EngineState) (idx : Nat) :
    (addToBook s idx).store = s.store := by
  unfold addToBook
  by_cases h : (getStore s idx).side = Side.BUY <;> simp [h]

theorem removeFromBook_orders (s : EngineState) (idx : Nat) :
    (removeFromBook s idx).orders = s.orders := by
  unfold removeFromBook
  by_cases h : (getStore s idx).side = Side.BUY <;> simp [h]

theorem removeFromBook_store (s : EngineState) (idx : Nat) :
    (removeFromBook s idx).store = s.store := by
  unfold removeFromBook
  by_cases h : (getStore s idx).side = Side.BUY <;> simp [h]


theorem whileLevel_zero_cons (isBuy : Bool) (p : Price) (s : EngineState)
    (idx front : Nat) (rest : List Nat) (q : Quantity)
    (h : ¬ (front :: rest = ([] : List Nat) ∨ (getStore s idx).getRemainingQuantity = 0)) :
    whileLevel isBuy p 0 s idx (front :: rest) q = none := by
  unfold whileLevel
  rw [if_neg h]

theorem whileLevel_succ_cons (isBuy : Bool) (p : Price) (n : Nat) (s : EngineState)
    (idx front : Nat) (rest : List Nat) (q : Quantity)
    (h : ¬ (front :: rest = ([] : List Nat) ∨ (getStore s idx).getRemainingQuantity = 0)) :
    whileLevel isBuy p (n + 1) s idx (front :: rest) q =
      (let tradeQty := min (getStore s idx).getRemainingQuantity
          (getStore s front).getRemainingQuantity
       let r1 := (getStore s front).fill tradeQty p
       if r1.1 then
         let s1 := setStore s front r1.2
         let r2 := (getStore s1 idx).fill tradeQty p
         if r2.1 then
           let s2 := setStore s1 idx r2.2
           let tr := if isBuy then createTrade s2 idx front tradeQty p
                     else createTrade s2 front idx tradeQty p
           let lo1 := if (getStore s2 front).isFilled then rest else front :: rest
           match whileLevel isBuy p n s2 idx lo1 (q - tradeQty) with
           | none => none
           | some (trs, s3, lo, lq) => some (tr :: trs, s3, lo, lq)
         else whileLevel isBuy p n s1 idx (front :: rest) q
       else whileLevel isBuy p n s idx (front :: rest) q) := by
  conv_lhs => unfold whileLevel
  rw [if_neg h]

theorem whileLevel_exit (isBuy : Bool) (p : Price) (fuel : Nat) (s : EngineState)
    (idx : Nat) (L : List Nat) (q : Quantity)
    (h : L = [] ∨ (getStore s idx).getRemainingQuantity = 0) :
    whileLevel isBuy p fuel s idx L q = some ([], s, L, q) := by
  unfold whileLevel
  rw [if_pos h]

theorem whileLevel_orders (isBuy : Bool) (p : Price) (fuel : Nat) :
    ∀ (s : EngineState) (idx : Nat) (L : List Nat) (q : Quantity)
      (r : List Trade × EngineState × List Nat × Quantity),
    whileLevel isBuy p fuel s idx L q = some r → r.2.1.orders = s.orders := by
  induction fuel with
  | zero =>
    intro s idx L q r h
    by_cases hc : L = [] ∨ (getStore s idx).getRemainingQuantity = 0
    · rw [whileLevel_exit isBuy p 0 s idx L q hc] at h
      injection h with h
      subst h
      rfl
    · cases L with
      | nil => exact absurd (Or.inl rfl) hc
      | cons front rest =>
        rw [whileLevel_zero_cons isBuy p s idx front rest q hc] at h
        cases h
  | succ n ih =>
    intro s idx L q r h
    by_cases hc : L = [] ∨ (getStore s idx).getRemainingQuantity = 0
    · rw [whileLevel_exit isBuy p (n + 1) s idx L q hc] at h
      injection h with h
      subst h
      rfl
    · cases L with
      | nil => exact absurd (Or.inl rfl) hc
      | cons front rest =>
        rw [whileLevel_succ_cons isBuy p n s idx front rest q hc] at h
        simp only [] at h
        split at h
        · split at h
          · split at h
            · cases h
            · rename_i trs s3 lo lq heq
              injection h with h
              subst h
              exact (ih _ _ _ _ _ heq).trans rfl
          · exact (ih _ _ _ _ _ h).trans rfl
        · exact ih _ _ _ _ _ h


theorem levelsLoop_orders (buyStyle : Bool) (fuel : Nat) :
    ∀ (L : List (Price × PriceLevel)) (s : EngineState) (idx : Nat)
      (r : List Trade × EngineState × List (Price × PriceLevel)),
    levelsLoop buyStyle fuel s idx L = some r → r.2.1.orders = s.orders := by
  intro L
  induction L with
  | nil =>
    intro s idx r h
    unfold levelsLoop at h
    injection h with h
    subst h
    rfl
  | cons hd tl ih =>
    intro s idx r h
    obtain ⟨p, lvl⟩ := hd
    unfold levelsLoop at h
    simp only [] at h
    by_cases hrem0 : (getStore s idx).getRemainingQuantity = 0
    · rw [if_pos hrem0] at h
      injection h with h
      subst h
      rfl
    · rw [if_neg hrem0] at h
      by_cases hbrk : ((if buyStyle then p > (getStore s idx).price
          else p < (getStore s idx).price) ∧ (getStore s idx).type ≠ OrderType.MARKET)
      · rw [if_pos hbrk] at h
        injection h with h
        subst h
        rfl
      · rw [if_neg hbrk] at h
        split at h
        · cases h
        · rename_i tr1 s1 lo lq heq1
          split at h
          · cases h
          · rename_i tr2 s2 rest1 heq2
            have h1 := whileLevel_orders buyStyle p fuel s idx lvl.orders lvl.totalQuantity
              (tr1, s1, lo, lq) heq1
            have h2 := ih s1 idx (tr2, s2, rest1) heq2
            split at h
            · injection h with h
              subst h
              exact h2.trans h1
            · injection h with h
              subst h
              exact h2.trans h1

theorem matchOrderBook_orders (fuel : Nat) (s : EngineState) (idx : Nat)
    (r : List Trade × EngineState)
    (h : matchOrderBook fuel s idx = some r) : r.2.orders = s.orders := by
  unfold matchOrderBook at h
  split at h
  · split at h
    · cases h
    · rename_i tr s1 lv heq
      injection h with h
      subst h
      exact levelsLoop_orders true fuel s.sellLevels s idx _ heq
  · split at h
    · cases h
    · rename_i tr s1 lv heq
      injection h with h
      subst h
      exact levelsLoop_orders false fuel s.buyLevels s idx _ heq

theorem sweepStops_orders (p : Price) :
    ∀ (l : List Nat) (s : EngineState),
    (sweepStops p s l).1.orders = s.orders := by
  intro l
  induction l with
  | nil => intro s; rfl
  | cons i rest ih =>
    intro s
    unfold sweepStops
    simp only []
    split
    · exact ih _
    · exact ih _


theorem engineStep_orders (fuel : Nat) :
    ∀ (s : EngineState) (c : ECall) (r : List Trade × EngineState),
    engineStep fuel s c = some r → r.2.orders = s.orders := by
  induction fuel with
  | zero =>
    intro s c r h
    cases h
  | succ n ih =>
    intro s c r h
    cases c with
    | market idx =>
      unfold engineStep at h
      split at h
      · cases h
      · rename_i trades s1 heq
        have h1 : s1.orders = s.orders := matchOrderBook_orders n s idx (trades, s1) heq
        simp only [] at h
        split at h
        · injection h with h
          subst h
          simp only []
          split <;> simpa using h1
        · rename_i t heqLast
          split at h
          · cases h
          · rename_i tt s4 heq2
            injection h with h
            subst h
            have h2 := ih _ _ _ heq2
            simp only [] at h2
            refine h2.trans ?_
            split <;> simpa using h1
    | limit idx =>
      unfold engineStep at h
      split at h
      · cases h
      · rename_i trades s1 heq
        have h1 : s1.orders = s.orders := matchOrderBook_orders n s idx (trades, s1) heq
        simp only [] at h
        split at h
        · injection h with h
          subst h
          simp only []
          split
          · rw [addToBook_orders]
            exact h1
          · exact h1
        · rename_i t heqLast
          split at h
          · cases h
          · rename_i tt s4 heq2
            injection h with h
            subst h
            have h2 := ih _ _ _ heq2
            simp only [] at h2
            refine h2.trans ?_
            split
            · rw [addToBook_orders]
              exact h1
            · exact h1
    | triggers p =>
      unfold engineStep at h
      simp only [] at h
      have h2 := ih _ _ _ h
      exact h2.trans (sweepStops_orders p s.stopOrders s)
    | runTrig l =>
      cases l with
      | nil =>
        unfold engineStep at h
        injection h with h
        subst h
        rfl
      | cons i rest =>
        unfold engineStep at h
        simp only [] at h
        split at h
        · cases h
        · rename_i tr1 s1 heq1
          split at h
          · cases h
          · rename_i tr2 s2 heq2
            injection h with h
            subst h
            exact (ih _ _ _ heq2).trans (ih _ _ _ heq1)

theorem lookup_insertAssoc (l : List (OrderId × Nat)) (id : OrderId) (v : Nat) :
    lookupAssoc (insertAssoc l id v) id = some v := by
  induction l with
  | nil => simp [insertAssoc, lookupAssoc]
  | cons hd tl ih =>
    obtain ⟨k, w⟩ := hd
    by_cases hk : k = id
    · simp [insertAssoc, lookupAssoc, hk]
    · simp [insertAssoc, lookupAssoc, hk, ih]


/-- Claim C6 as amended: the canonical `processOrder` performs no
duplicate-id screening at all.  Every submission that passes the symbol
and rejection checks — whether or not its id is already known — is
recorded by overwriting the index entry for that id with the freshly
stored order (`s.store.length` is the new arena slot), so the previously
known order is no longer reachable under that id. -/
theorem C6_duplicate_id_amended (fuel : Nat) (s : EngineState) (o : Order)
    (tr : List Trade) (s1 : EngineState)
    (hsym : o.symbol = s.symbol) (hst : o.status ≠ OrderStatus.REJECTED)
    (hrun : processOrder fuel s o = some (tr, s1)) :
    lookupAssoc s1.orders o.id = some s.store.length ∧
    ∀ j, j ≠ s.store.length → lookupAssoc s1.orders o.id ≠ some j := by
  have key : s1.orders = insertAssoc s.orders o.id s.store.length := by
    unfold processOrder at hrun
    rw [if_neg (by simp [hsym])] at hrun
    rw [if_neg hst] at hrun
    simp only [] at hrun
    split at hrun
    · exact engineStep_orders fuel _ _ _ hrun
    · exact engineStep_orders fuel _ _ _ hrun
    · by_cases hltp : s.lastTradePrice ≠ 0
      · rw [if_pos hltp] at hrun
        split at hrun
        · split at hrun
          · exact engineStep_orders fuel _ _ _ hrun
          · exact engineStep_orders fuel _ _ _ hrun
        · injection hrun with h
          injection h with h1 h2
          rw [← h2, setStore_orders]
      · rw [if_neg hltp] at hrun
        injection hrun with h
        injection h with h1 h2
        rw [← h2]
  constructor
  · rw [key]
    exact lookup_insertAssoc s.orders o.id s.store.length
  · intro j hj hc
    rw [key, lookup_insertAssoc s.orders o.id s.store.length] at hc
    injection hc with hc
    exact hj hc.symm


theorem C6_duplicate_id_amended_witness :
    (Order.mkLimitOrder 1 "T" Side.BUY 5 50).symbol = (initOrderBook "T").symbol ∧
    (Order.mkLimitOrder 1 "T" Side.BUY 5 50).status ≠ OrderStatus.REJECTED ∧
    processOrder 8 (initOrderBook "T") (Order.mkLimitOrder 1 "T" Side.BUY 5 50) =
      some ([], c6m1) ∧
    (lookupAssoc c6m1.orders (Order.mkLimitOrder 1 "T" Side.BUY 5 50).id =
       some (initOrderBook "T").store.length ∧
     ∀ j, j ≠ (initOrderBook "T").store.length →
       lookupAssoc c6m1.orders (Order.mkLimitOrder 1 "T" Side.BUY 5 50).id ≠ some j) :=
  ⟨rfl, by decide, by decide,
   C6_duplicate_id_amended 8 (initOrderBook "T") (Order.mkLimitOrder 1 "T" Side.BUY 5 50)
     [] c6m1 rfl (by decide) (by decide)⟩

/-- Claim C7 as amended: when the requested modification fails the
order's own validation (here: new quantity below the filled quantity, on
a resting non-stop order), `modifyOrder` signals failure and **restores**
the original order: it is re-appended to its price level (time priority
lost), while the order object itself, the order index — and hence
`getOrder` — are untouched; the order is neither cancelled nor absent. -/
theorem C7_failed_modify_amended (fuel : Nat) (s : EngineState) (orderId : OrderId)
    (idx : Nat) (nq : Quantity) (np nsp : Price)
    (hfind : lookupAssoc s.orders orderId = some idx)
    (hact : (getStore s idx).isActive = true)
    (htrig : (getStore s idx).isTriggerOrder = false)
    (hval : nq < (getStore s idx).filledQuantity) :
    modifyOrder fuel s orderId nq np nsp =
      some (false, addToBook (removeFromBook s idx) idx) ∧
    (addToBook (removeFromBook s idx) idx).store = s.store ∧
    (addToBook (removeFromBook s idx) idx).orders = s.orders ∧
    getOrder (addToBook (removeFromBook s idx) idx) orderId = getOrder s orderId := by
  have hstore : (addToBook (removeFromBook s idx) idx).store = s.store := by
    rw [addToBook_store, removeFromBook_store]
  have horders : (addToBook (removeFromBook s idx) idx).orders = s.orders := by
    rw [addToBook_orders, removeFromBook_orders]
  have hcond : ((getStore s idx).isActive = true ∧
      ¬ (getStore s idx).isTriggerOrder = true) := ⟨hact, by simp [htrig]⟩
  have hmod : (getStore s idx).modify nq np nsp = (false, getStore s idx) := by
    unfold Order.modify
    rw [if_neg (by simp [hact]), if_pos hval]
  refine ⟨?_, hstore, horders, ?_⟩
  · unfold modifyOrder
    rw [hfind]
    simp only []
    rw [if_neg (show ¬ ((getStore s idx).isTriggerOrder = true ∧
        ¬ (getStore s idx).isTriggered = true) from by simp [htrig])]
    rw [hmod]
    rw [if_pos (show ¬ ((false, getStore s idx).1 = true) from by simp)]
    rw [if_pos hcond, if_pos hcond]
  · unfold getOrder
    rw [horders, hfind]
    unfold getStore
    rw [hstore]


theorem C7_failed_modify_amended_witness :
    lookupAssoc c7g2.orders 1 = some 0 ∧
    (getStore c7g2 0).isActive = true ∧
    (getStore c7g2 0).isTriggerOrder = false ∧
    (2 : Quantity) < (getStore c7g2 0).filledQuantity ∧
    (modifyOrder 8 c7g2 1 2 100 0 =
       some (false, addToBook (removeFromBook c7g2 0) 0) ∧
     (addToBook (removeFromBook c7g2 0) 0).store = c7g2.store ∧
     (addToBook (removeFromBook c7g2 0) 0).orders = c7g2.orders ∧
     getOrder (addToBook (removeFromBook c7g2 0) 0) 1 = getOrder c7g2 1) :=
  ⟨by decide, by decide, by decide, by decide,
   C7_failed_modify_amended 8 c7g2 1 0 2 100 0 (by decide) (by decide) (by decide) (by decide)⟩

end OB
